import Mathlib

/-!
Verification of the criteria-resolution and availability-decision engine of
`src/app.py` (AI occupancy planner).  The Python functions
`find_marketing_zone_areas`, `check_desk_availability`, the inline floor
parsing (lines 263-270) and the inline desk-filtering pipeline
(lines 279-309) are embedded as executable Lean definitions below; JSON
values reached through `.get` are modelled as `Option`-valued fields, and
Python string truthiness (`if x:`) is modelled explicitly.
-/

set_option maxHeartbeats 1000000

namespace OccupancyPlanner

/-- Rendering of an optional string inside a Python f-string: `None` when absent. -/
def optStr : Option String → String
  | none => "None"
  | some s => s

/-- Python truthiness of an optional string value: `None` and `""` are falsy. -/
def truthyOptStr : Option String → Bool
  | none => false
  | some s => !s.isEmpty

/-- Does `p` start the list? (helper for the Python `in` substring test). -/
def listStartsWith : List Char → List Char → Bool
  | [], _ => true
  | _ :: _, [] => false
  | p :: ps, c :: cs => p == c && listStartsWith ps cs

/-- Does `pat` occur as a contiguous sublist? -/
def subListOf (pat : List Char) : List Char → Bool
  | [] => pat.isEmpty
  | c :: rest => listStartsWith pat (c :: rest) || subListOf pat rest

/-- Python `pat in s` on strings: contiguous substring test. -/
def strIn (pat s : String) : Bool :=
  subListOf pat.toList s.toList

/-- Python `s.lower()` (the datasets and the compared literal are ASCII). -/
def strLower (s : String) : String :=
  String.mk (s.toList.map Char.toLower)

/-- One record of `spaces.json`; every field is reached via `.get` in the
source, hence `Option`-valued. -/
structure Space where
  id : Option String
  name : Option String
  type : Option String
  parent_id : Option String
deriving DecidableEq

/-- The `spaces.json` payload: `spaces_data.get("spaces", [])`. -/
structure SpacesData where
  spaces : List Space
deriving DecidableEq

/-- One record of `desks.json`; fields reached via `.get` in the source. -/
structure Desk where
  id : Option String
  type : Option String
  floor : Option Int
  area_id : Option String
  status : Option String
  vergesense_area_id : Option String
deriving DecidableEq

/-- The `next_day` slot map of one forecast entry. -/
structure NextDayForecast where
  morning : Option Int
  afternoon : Option Int
  evening : Option Int
deriving DecidableEq

/-- One area's entry in `occupancy.json`'s `forecast` map. -/
structure AreaForecast where
  next_day : Option NextDayForecast
deriving DecidableEq

/-- The `occupancy.json` payload: the `forecast` map, keyed by area id
(JSON object keys are strings; association-list order models dict order). -/
structure OccupancyData where
  forecast : List (String × AreaForecast)
deriving DecidableEq

/-- One record of `policies.json`. -/
structure Policy where
  id : Option String
  description : Option String
deriving DecidableEq

/-- The `policies.json` payload: `policies.get("policies", [])`. -/
structure PoliciesData where
  policies : List Policy
deriving DecidableEq

/-- Predicate of the first scan of `find_marketing_zone_areas`
(src/app.py line 146): `space.get("name") == "Marketing Zone" and
space.get("type") == "zone"`. -/
def is_marketing_zone (s : Space) : Bool :=
  s.name == some "Marketing Zone" && s.type == some "zone"

/-- `find_marketing_zone_areas` (src/app.py lines 142-158).  The first scan
takes the id of the first marketing-zone space; `if not marketing_zone_id:
return []` tests Python truthiness of that id (`None`, or an empty string,
is falsy).  The second scan collects `space.get("id")` of every space whose
`parent_id` equals the found id and whose type is `"area"`. -/
def find_marketing_zone_areas (spaces_data : SpacesData) : List (Option String) :=
  match spaces_data.spaces.find? is_marketing_zone with
  | none => []
  | some z =>
    match z.id with
    | none => []
    | some zid =>
      if zid.isEmpty then []
      else
        (spaces_data.spaces.filter
          (fun s => s.parent_id == some zid && s.type == some "area")).map (·.id)

/-- The forecast lookup chain of src/app.py lines 171-173:
`occupancy_data.get("forecast", {}).get(area_id, {}).get("next_day", {}).get("afternoon")`.
A `None` area id matches no string key of the JSON object. -/
def afternoon_forecast (occupancy_data : OccupancyData) (area_id : Option String) :
    Option Int :=
  match area_id with
  | none => none
  | some a =>
    match occupancy_data.forecast.find? (fun e => e.1 == a) with
    | none => none
    | some e =>
      match e.2.next_day with
      | none => none
      | some nd => nd.afternoon

/-- The threshold computation of src/app.py lines 180-184: find the first
policy with id `"POL-005"`; `threshold = 80` by default, and the substring
check `"80%" in capacity_policy.get("description", "")` re-assigns the same
value 80. -/
def computeThreshold (policies : PoliciesData) : Int :=
  match policies.policies.find? (fun p => p.id == some "POL-005") with
  | none => 80
  | some capacity_policy =>
    if strIn "80%" (capacity_policy.description.getD "") then 80 else 80

/-- `check_desk_availability` (src/app.py lines 160-204). -/
def check_desk_availability (desk : Desk) (time_request : String)
    (occupancy_data : OccupancyData) (policies : PoliciesData) : Bool × String :=
  if desk.status == some "maintenance" then
    (false, "Desk is under maintenance.")
  else if time_request == "tomorrow afternoon" then
    let area_id := desk.vergesense_area_id
    match afternoon_forecast occupancy_data area_id with
    | none =>
      (false, "No 'afternoon' forecast data available for Area " ++ optStr area_id
        ++ " tomorrow.")
    | some forecast =>
      let threshold := computeThreshold policies
      if forecast ≥ threshold then
        (false, "Area " ++ optStr area_id ++ " forecasted occupancy ("
          ++ toString forecast ++ "%) meets/exceeds threshold (" ++ toString threshold
          ++ "%) for tomorrow afternoon.")
      else
        (true, "Area " ++ optStr area_id ++ " forecast (" ++ toString forecast
          ++ "%) is below threshold (" ++ toString threshold
          ++ "%) for tomorrow afternoon. Desk *may* be available.")
  else if time_request == "now" then
    if desk.status == some "available" then
      (true, "Desk is currently available.")
    else
      (false, "Desk status is currently '" ++ optStr desk.status ++ "'.")
  else
    (false, "Availability check for '" ++ time_request ++ "' not implemented.")

/-- The raw `floor` field of the structured criteria: the NLP contract allows
a string or a number. -/
inductive FloorVal where
  | str (s : String)
  | num (n : Int)
deriving DecidableEq

/-- Python `str(...)` coercion of the raw floor value. -/
def FloorVal.toStr : FloorVal → String
  | .str s => s
  | .num n => toString n

/-- Python truthiness of the raw floor value: `""` and `0` are falsy. -/
def FloorVal.truthy : FloorVal → Bool
  | .str s => !s.isEmpty
  | .num n => n != 0

/-- Value of a nonempty decimal digit string, as Python `int` parses it. -/
def digitsToNat (ds : List Char) : Nat :=
  ds.foldl (fun acc c => acc * 10 + (c.toNat - 48)) 0

/-- The inline floor normalization of src/app.py lines 263-270.  Returns the
parsed floor and whether a warning was signaled.  `if req_floor_str:` skips
the whole block on a falsy value (no warning); otherwise all digit characters
of `str(req_floor_str)` are concatenated and parsed with `int`, and
`int("")` raises `ValueError`, caught and turned into a warning. -/
def parse_req_floor (req_floor_str : Option FloorVal) : Option Int × Bool :=
  match req_floor_str with
  | none => (none, false)
  | some v =>
    if v.truthy then
      let digits := (FloorVal.toStr v).toList.filter Char.isDigit
      if digits.isEmpty then (none, true)
      else (some (Int.ofNat (digitsToNat digits)), false)
    else (none, false)

/-- Written from the spec's words for comparison with `parse_req_floor`:
"coerce to string, extract ... concatenating all digit characters found, in
order, ignoring non-digits, parse as integer; if the extraction yields no
digits, result is None". -/
def specAllDigitsFloor (s : String) : Option Int :=
  let ds := s.toList.filter Char.isDigit
  if ds.isEmpty then none else some (Int.ofNat (digitsToNat ds))

/-- Type filter step (src/app.py lines 288-290): applied only when
`req_desk_type` is truthy. -/
def typeStep (req_desk_type : Option String) (ds : List Desk) : List Desk :=
  match req_desk_type with
  | none => ds
  | some t => if t.isEmpty then ds else ds.filter (fun d => d.type == some t)

/-- Log entry of the type filter step: one entry exactly when the filter runs. -/
def typeLog (req_desk_type : Option String) (ds : List Desk) : List String :=
  match req_desk_type with
  | none => []
  | some t =>
    if t.isEmpty then []
    else ["Filtered by type '" ++ t ++ "': "
      ++ toString (typeStep req_desk_type ds).length ++ " remaining."]

/-- Floor filter step (src/app.py lines 293-295): applied when `req_floor`
is not `None` (an `is not None` test, not truthiness). -/
def floorStep (req_floor : Option Int) (ds : List Desk) : List Desk :=
  match req_floor with
  | none => ds
  | some f => ds.filter (fun d => d.floor == some f)

/-- Log entry of the floor filter step. -/
def floorLog (req_floor : Option Int) (ds : List Desk) : List String :=
  match req_floor with
  | none => []
  | some f => ["Filtered by floor '" ++ toString f ++ "': "
      ++ toString (floorStep req_floor ds).length ++ " remaining."]

/-- `', '.join(marketing_area_ids)` of src/app.py line 305; the source data
carries string ids (a `None` id would make the Python join raise, a case the
datasets never produce). -/
def joinIds (ids : List (Option String)) : String :=
  String.intercalate ", " (ids.map optStr)

/-- Proximity filter step (src/app.py lines 298-309), for a loaded spaces
dataset (the caller guards `all([spaces_data, ...])` at line 241):
only a truthy target whose lowercasing equals `"marketing team"` filters,
and only when `find_marketing_zone_areas` returns a nonempty id list. -/
def proxStep (spaces_data : SpacesData) (req_proximity : Option String)
    (ds : List Desk) : List Desk :=
  match req_proximity with
  | none => ds
  | some p =>
    if p.isEmpty then ds
    else if strLower p == "marketing team" then
      let marketing_area_ids := find_marketing_zone_areas spaces_data
      if marketing_area_ids.isEmpty then ds
      else ds.filter (fun d => marketing_area_ids.contains d.area_id)
    else ds

/-- Log entries of the proximity filter step. -/
def proxLog (spaces_data : SpacesData) (req_proximity : Option String)
    (ds : List Desk) : List String :=
  match req_proximity with
  | none => []
  | some p =>
    if p.isEmpty then []
    else if strLower p == "marketing team" then
      let marketing_area_ids := find_marketing_zone_areas spaces_data
      if marketing_area_ids.isEmpty then
        ["Warning: Could not find areas associated with 'Marketing Zone'. Skipping proximity filter."]
      else
        ["Filtered by proximity to 'Marketing Team' (Areas: "
          ++ joinIds marketing_area_ids ++ "): "
          ++ toString (proxStep spaces_data req_proximity ds).length ++ " remaining."]
    else
      ["Note: Proximity filter for '" ++ p ++ "' not specifically implemented in this prototype."]

/-- The desk-filtering pipeline of src/app.py lines 279-309: sequential
narrowing (each step consumes the previous step's output), with the
`filter_log` starting at the initial count and extended by each step. -/
def candidate_desks (desks : List Desk) (req_desk_type : Option String)
    (req_floor : Option Int) (req_proximity : Option String)
    (spaces_data : SpacesData) : List Desk × List String :=
  let c1 := typeStep req_desk_type desks
  let c2 := floorStep req_floor c1
  let c3 := proxStep spaces_data req_proximity c2
  (c3,
    ("Starting with " ++ toString desks.length ++ " total desks.")
      :: (typeLog req_desk_type desks ++ floorLog req_floor c1
          ++ proxLog spaces_data req_proximity c2))

/-- The reason string `r` mentions `part`: `part` occurs contiguously in `r`. -/
def cites (r part : String) : Prop :=
  ∃ a b, r = a ++ part ++ b

lemma computeThreshold_eq (pol : PoliciesData) : computeThreshold pol = 80 := by
  unfold computeThreshold
  cases pol.policies.find? (fun p => p.id == some "POL-005") with
  | none => rfl
  | some p => simp

/-- Claim C6: a desk in maintenance is unavailable with reason
"under maintenance" for every time request, forecast and policy input;
the maintenance check is terminal. -/
theorem claim_C6 (desk : Desk) (time_request : String) (occ : OccupancyData)
    (pol : PoliciesData) (h : desk.status = some "maintenance") :
    check_desk_availability desk time_request occ pol =
      (false, "Desk is under maintenance.") := by
  simp [check_desk_availability, h]

/-- Witness for C6 at a concrete maintenance desk. -/
theorem claim_C6_witness :
    check_desk_availability ⟨some "D1", some "standing", some 3, some "A1",
        some "maintenance", some "VA1"⟩ "tomorrow afternoon" ⟨[]⟩ ⟨[]⟩ =
      (false, "Desk is under maintenance.") :=
  claim_C6 _ _ _ _ rfl

/-- Claim C8: the computed threshold is 80 for every policies value, and the
"tomorrow afternoon" availability decision never depends on the policies
argument. -/
theorem claim_C8 :
    (∀ pol : PoliciesData, computeThreshold pol = 80) ∧
    (∀ (desk : Desk) (occ : OccupancyData) (p1 p2 : PoliciesData),
      check_desk_availability desk "tomorrow afternoon" occ p1 =
        check_desk_availability desk "tomorrow afternoon" occ p2) := by
  refine ⟨computeThreshold_eq, fun desk occ p1 p2 => ?_⟩
  simp only [check_desk_availability, computeThreshold_eq]

/-- Claim C10: whenever the first marketing-zone match in the spaces list has
a falsy id (`None` or `""`), `find_marketing_zone_areas` returns the empty
list even though a matching zone exists, because the not-found check tests
the truthiness of the found zone's id. -/
theorem claim_C10 (sp : SpacesData) (z : Space)
    (hfind : sp.spaces.find? is_marketing_zone = some z)
    (hfalsy : truthyOptStr z.id = false) :
    find_marketing_zone_areas sp = [] := by
  simp only [find_marketing_zone_areas, hfind]
  cases hz : z.id with
  | none => rfl
  | some s =>
    rw [hz] at hfalsy
    simp only [truthyOptStr, Bool.not_eq_false'] at hfalsy
    simp [hfalsy]

/-- Concrete spaces input for the C10 witness: a marketing zone whose id is
the empty string, with an area attached to that id. -/
def spacesFalsyId : SpacesData :=
  ⟨[⟨some "", some "Marketing Zone", some "zone", none⟩,
    ⟨some "A1", some "Area One", some "area", some ""⟩]⟩

/-- Witness for C10: the matching zone exists, yet the result is empty. -/
theorem claim_C10_witness :
    spacesFalsyId.spaces.find? is_marketing_zone =
      some ⟨some "", some "Marketing Zone", some "zone", none⟩ ∧
    find_marketing_zone_areas spacesFalsyId = [] :=
  ⟨by decide,
   claim_C10 spacesFalsyId ⟨some "", some "Marketing Zone", some "zone", none⟩
     (by decide) (by decide)⟩

/-- Claim C7: when no space is a zone named "Marketing Zone", resolving the
zone's areas returns the empty list (and, being a total function, never
throws); the proximity step then leaves the candidates unchanged and logs
the skip warning. -/
theorem claim_C7 (sp : SpacesData)
    (hnone : ∀ s ∈ sp.spaces, ¬(s.name = some "Marketing Zone" ∧ s.type = some "zone")) :
    find_marketing_zone_areas sp = [] ∧
    ∀ (ds : List Desk) (p : String), p.isEmpty = false → strLower p = "marketing team" →
      proxStep sp (some p) ds = ds ∧
      proxLog sp (some p) ds =
        ["Warning: Could not find areas associated with 'Marketing Zone'. Skipping proximity filter."] := by
  have h0 : sp.spaces.find? is_marketing_zone = none := by
    rw [List.find?_eq_none]
    intro x hx
    have := hnone x hx
    simp only [is_marketing_zone, Bool.and_eq_true, beq_iff_eq]
    intro hcon
    exact this hcon
  have h1 : find_marketing_zone_areas sp = [] := by
    unfold find_marketing_zone_areas
    rw [h0]
  refine ⟨h1, fun ds p hp1 hp2 => ?_⟩
  constructor
  · unfold proxStep
    simp [hp1, hp2, h1]
  · unfold proxLog
    simp [hp1, hp2, h1]

/-- Witness for C7 on a spaces list with no marketing zone. -/
theorem claim_C7_witness :
    find_marketing_zone_areas ⟨[⟨some "Z9", some "Engineering Zone", some "zone", none⟩]⟩ = [] ∧
    proxStep ⟨[⟨some "Z9", some "Engineering Zone", some "zone", none⟩]⟩
        (some "Marketing Team") [⟨some "D1", some "standing", some 3, some "A1",
          some "available", some "VA1"⟩] =
      [⟨some "D1", some "standing", some 3, some "A1", some "available", some "VA1"⟩] := by
  have h := claim_C7 ⟨[⟨some "Z9", some "Engineering Zone", some "zone", none⟩]⟩ (by decide)
  exact ⟨h.1, (h.2 _ "Marketing Team" (by decide) (by decide)).1⟩

/-- Claim C5: with time request `"now"` a desk is available exactly when its
status is `"available"`; any other status string yields unavailable with a
reason that cites that status string (for a maintenance desk the reason
"Desk is under maintenance." cites the status `"maintenance"`). -/
theorem claim_C5 (desk : Desk) (occ : OccupancyData) (pol : PoliciesData) :
    ((check_desk_availability desk "now" occ pol).1 = true ↔
      desk.status = some "available") ∧
    (∀ s : String, desk.status = some s → s ≠ "available" →
      (check_desk_availability desk "now" occ pol).1 = false ∧
      cites (check_desk_availability desk "now" occ pol).2 s) := by
  by_cases hm : desk.status = some "maintenance"
  · have hr : check_desk_availability desk "now" occ pol =
        (false, "Desk is under maintenance.") := by
      simp [check_desk_availability, hm]
    rw [hr]
    refine ⟨by simp [hm], fun s hs _ => ?_⟩
    rw [hm] at hs
    obtain rfl : s = "maintenance" := (Option.some_inj.mp hs).symm
    exact ⟨rfl, "Desk is under ", ".", by decide⟩
  · by_cases ha : desk.status = some "available"
    · have hr : check_desk_availability desk "now" occ pol =
          (true, "Desk is currently available.") := by
        simp [check_desk_availability, hm, ha]
      rw [hr]
      refine ⟨by simp [ha], fun s hs hne => ?_⟩
      rw [ha] at hs
      exact absurd (Option.some_inj.mp hs).symm hne
    · have hr : check_desk_availability desk "now" occ pol =
          (false, "Desk status is currently '" ++ optStr desk.status ++ "'.") := by
        simp [check_desk_availability, hm, ha]
      rw [hr]
      refine ⟨by simp [ha], fun s hs _ => ?_⟩
      refine ⟨rfl, "Desk status is currently '", "'.", ?_⟩
      rw [hs]
      rfl

/-- Witness for C5 at a concrete occupied desk. -/
theorem claim_C5_witness :
    (check_desk_availability ⟨some "D1", some "standing", some 3, some "A1",
        some "occupied", some "VA1"⟩ "now" ⟨[]⟩ ⟨[]⟩).1 = false ∧
    cites (check_desk_availability ⟨some "D1", some "standing", some 3, some "A1",
        some "occupied", some "VA1"⟩ "now" ⟨[]⟩ ⟨[]⟩).2 "occupied" :=
  (claim_C5 ⟨some "D1", some "standing", some 3, some "A1",
      some "occupied", some "VA1"⟩ ⟨[]⟩ ⟨[]⟩).2 "occupied" rfl (by decide)

/-- Claim C1: for a non-maintenance desk and time request "tomorrow
afternoon", a missing afternoon forecast for the desk's vergesense area is
unavailable (fail-closed); a forecast value of at least 80 (the boundary 80
included) is unavailable; a value below 80 is available with a reason citing
the forecast value and the threshold 80. -/
theorem claim_C1 (desk : Desk) (occ : OccupancyData) (pol : PoliciesData)
    (hm : desk.status ≠ some "maintenance") :
    (afternoon_forecast occ desk.vergesense_area_id = none →
      (check_desk_availability desk "tomorrow afternoon" occ pol).1 = false) ∧
    (∀ v : Int, afternoon_forecast occ desk.vergesense_area_id = some v →
      ((80 ≤ v → (check_desk_availability desk "tomorrow afternoon" occ pol).1 = false) ∧
       (v < 80 →
         (check_desk_availability desk "tomorrow afternoon" occ pol).1 = true ∧
         cites (check_desk_availability desk "tomorrow afternoon" occ pol).2 (toString v) ∧
         cites (check_desk_availability desk "tomorrow afternoon" occ pol).2 "80"))) := by
  have h80 : toString (80 : Int) = "80" := rfl
  constructor
  · intro hf
    simp [check_desk_availability, hm, hf]
  · intro v hf
    constructor
    · intro hge
      simp [check_desk_availability, hm, hf, computeThreshold_eq, hge]
    · intro hlt
      have hnge : ¬ (80 : Int) ≤ v := not_le.mpr hlt
      have hr : check_desk_availability desk "tomorrow afternoon" occ pol =
          (true, "Area " ++ optStr desk.vergesense_area_id ++ " forecast ("
            ++ toString v ++ "%) is below threshold (" ++ "80"
            ++ "%) for tomorrow afternoon. Desk *may* be available.") := by
        simp [check_desk_availability, hm, hf, computeThreshold_eq, hnge, h80]
      rw [hr]
      refine ⟨rfl, ?_, ?_⟩
      · refine ⟨"Area " ++ optStr desk.vergesense_area_id ++ " forecast (",
          "%) is below threshold (" ++ ("80"
            ++ "%) for tomorrow afternoon. Desk *may* be available."), ?_⟩
        simp [String.append_assoc]
      · refine ⟨"Area " ++ optStr desk.vergesense_area_id ++ " forecast ("
          ++ (toString v ++ "%) is below threshold ("),
          "%) for tomorrow afternoon. Desk *may* be available.", ?_⟩
        simp [String.append_assoc]

/-- Witness for C1: an available desk in an area forecast at 65% is reported
available with a reason citing 65 and 80. -/
theorem claim_C1_witness :
    (check_desk_availability ⟨some "D1", some "standing", some 3, some "A1",
        some "available", some "VA1"⟩ "tomorrow afternoon"
        ⟨[("VA1", ⟨some ⟨some 40, some 65, some 50⟩⟩)]⟩ ⟨[]⟩).1 = true ∧
    cites (check_desk_availability ⟨some "D1", some "standing", some 3, some "A1",
        some "available", some "VA1"⟩ "tomorrow afternoon"
        ⟨[("VA1", ⟨some ⟨some 40, some 65, some 50⟩⟩)]⟩ ⟨[]⟩).2 (toString (65 : Int)) ∧
    cites (check_desk_availability ⟨some "D1", some "standing", some 3, some "A1",
        some "available", some "VA1"⟩ "tomorrow afternoon"
        ⟨[("VA1", ⟨some ⟨some 40, some 65, some 50⟩⟩)]⟩ ⟨[]⟩).2 "80" :=
  ((claim_C1 ⟨some "D1", some "standing", some 3, some "A1",
      some "available", some "VA1"⟩
      ⟨[("VA1", ⟨some ⟨some 40, some 65, some 50⟩⟩)]⟩ ⟨[]⟩
      (by decide)).2 65 (by decide)).2 (by decide)

/-- Counterexample to claim C2 as stated: the claim's leading-digit-run
semantics gives 3 on `"3a2"`, but the code concatenates every digit and
parses 32. -/
theorem claim_C2_counterexample :
    (parse_req_floor (some (FloorVal.str "3a2"))).1 = some 32 ∧
    some (32 : Int) ≠ some (3 : Int) := by
  constructor
  · rfl
  · decide

/-- Claim C2 (amended): for every truthy floor value, the normalized floor is
the integer value of the concatenation of all digit characters of the
coerced string, in order, ignoring non-digits, and `None` when there are no
digits (so `"3a2"` yields 32, not the leading run's 3). -/
theorem claim_C2 (v : FloorVal) (h : v.truthy = true) :
    (parse_req_floor (some v)).1 = specAllDigitsFloor (FloorVal.toStr v) := by
  simp only [parse_req_floor, specAllDigitsFloor, h, if_true]
  split <;> rfl

/-- Witness for C2 at the floor string `"3rd"`. -/
theorem claim_C2_witness :
    FloorVal.truthy (FloorVal.str "3rd") = true ∧
    (parse_req_floor (some (FloorVal.str "3rd"))).1 = specAllDigitsFloor "3rd" :=
  ⟨by decide, claim_C2 (FloorVal.str "3rd") (by decide)⟩

/-- Counterexample to claim C3 as stated: for the empty floor string the
normalized floor is `None`, but no warning is signaled — `if req_floor_str:`
is false for `""`, so the parse block (and its warning) is skipped. -/
theorem claim_C3_counterexample :
    (parse_req_floor (some (FloorVal.str ""))).1 = none ∧
    (parse_req_floor (some (FloorVal.str ""))).2 = false ∧
    (parse_req_floor (some (FloorVal.str ""))).2 ≠ true := by
  refine ⟨rfl, rfl, by decide⟩

/-- Claim C3 (amended): a truthy floor value whose coerced string has no
digits normalizes to `None` with a warning signaled (not a crash), the field
then acting as absent; a falsy floor value (such as `""`) is skipped
entirely, normalizing to `None` with no warning. -/
theorem claim_C3 (v : FloorVal) :
    (v.truthy = true →
      (FloorVal.toStr v).toList.filter Char.isDigit = [] →
      parse_req_floor (some v) = (none, true)) ∧
    (v.truthy = false → parse_req_floor (some v) = (none, false)) := by
  constructor
  · intro h1 h2
    simp [parse_req_floor, h1, h2]
    intro x hx
    cases hb : x.isDigit with
    | false => rfl
    | true =>
      exfalso
      have hmem : x ∈ List.filter Char.isDigit (FloorVal.toStr v).toList :=
        List.mem_filter.mpr ⟨hx, hb⟩
      rw [h2] at hmem
      exact (List.not_mem_nil x) hmem
  · intro h1
    simp [parse_req_floor, h1]

/-- Witness for C3 at `"abc"` (warning) and `""` (skipped, no warning). -/
theorem claim_C3_witness :
    parse_req_floor (some (FloorVal.str "abc")) = (none, true) ∧
    parse_req_floor (some (FloorVal.str "")) = (none, false) :=
  ⟨(claim_C3 (FloorVal.str "abc")).1 (by decide) (by decide),
   (claim_C3 (FloorVal.str "")).2 (by decide)⟩

lemma typeStep_sublist (t : Option String) (ds : List Desk) :
    (typeStep t ds).Sublist ds := by
  cases t with
  | none => exact List.Sublist.refl ds
  | some s =>
    simp only [typeStep]
    split
    · exact List.Sublist.refl ds
    · exact List.filter_sublist ds

lemma floorStep_sublist (f : Option Int) (ds : List Desk) :
    (floorStep f ds).Sublist ds := by
  cases f with
  | none => exact List.Sublist.refl ds
  | some x => exact List.filter_sublist ds

lemma proxStep_sublist (sp : SpacesData) (p : Option String) (ds : List Desk) :
    (proxStep sp p ds).Sublist ds := by
  cases p with
  | none => exact List.Sublist.refl ds
  | some x =>
    simp only [proxStep]
    split
    · exact List.Sublist.refl ds
    · split
      · split
        · exact List.Sublist.refl ds
        · exact List.filter_sublist ds
      · exact List.Sublist.refl ds

lemma floorStep_mono (f : Option Int) {l1 l2 : List Desk} (h : l1.Sublist l2) :
    (floorStep f l1).Sublist (floorStep f l2) := by
  cases f with
  | none => exact h
  | some x => exact h.filter _

lemma proxStep_mono (sp : SpacesData) (p : Option String) {l1 l2 : List Desk}
    (h : l1.Sublist l2) : (proxStep sp p l1).Sublist (proxStep sp p l2) := by
  cases p with
  | none => exact h
  | some x =>
    simp only [proxStep]
    split
    · exact h
    · split
      · split
        · exact h
        · exact h.filter _
      · exact h

/-- Claim C4: the filter pipeline is narrowing-only and order-stable (its
candidates form a subsequence of the input desks), and setting a desk type,
floor, or proximity target that was previously absent never increases the
candidate count. -/
theorem claim_C4 (desks : List Desk) (t : Option String) (f : Option Int)
    (p : Option String) (sp : SpacesData) :
    (candidate_desks desks t f p sp).1.Sublist desks ∧
    (∀ t0 : String,
      (candidate_desks desks (some t0) f p sp).1.length ≤
        (candidate_desks desks none f p sp).1.length) ∧
    (∀ f0 : Int,
      (candidate_desks desks t (some f0) p sp).1.length ≤
        (candidate_desks desks t none p sp).1.length) ∧
    (∀ p0 : String,
      (candidate_desks desks t f (some p0) sp).1.length ≤
        (candidate_desks desks t f none sp).1.length) := by
  refine ⟨?_, ?_, ?_, ?_⟩
  · exact ((proxStep_sublist sp p _).trans (floorStep_sublist f _)).trans
      (typeStep_sublist t desks)
  · intro t0
    have h1 : (typeStep (some t0) desks).Sublist (typeStep none desks) :=
      typeStep_sublist (some t0) desks
    exact (proxStep_mono sp p (floorStep_mono f h1)).length_le
  · intro f0
    have h1 : (floorStep (some f0) (typeStep t desks)).Sublist
        (floorStep none (typeStep t desks)) :=
      floorStep_sublist (some f0) (typeStep t desks)
    exact (proxStep_mono sp p h1).length_le
  · intro p0
    exact (proxStep_sublist sp (some p0)
      (floorStep f (typeStep t desks))).length_le

/-- Counterexample to claim C9 as stated: with no constraint present, none of
the three steps appends a trace entry, so the trace is the single starting
line rather than four entries. -/
theorem claim_C9_counterexample :
    (candidate_desks [] none none none ⟨[]⟩).2 = ["Starting with 0 total desks."] ∧
    (candidate_desks [] none none none ⟨[]⟩).2.length ≠ 4 := by
  refine ⟨rfl, by decide⟩

/-- Claim C9 (amended): the first trace entry records the starting desk
count; each pipeline step contributes exactly one entry when its constraint
is present (truthy desk type, non-`None` floor, truthy proximity target) and
none when absent, the type and floor entries (and the proximity entry when
the marketing-zone areas resolve) stating the filter and resulting count. -/
theorem claim_C9 (desks : List Desk) (t : Option String) (f : Option Int)
    (p : Option String) (sp : SpacesData) :
    (candidate_desks desks t f p sp).2 =
      ("Starting with " ++ toString desks.length ++ " total desks.")
        :: (typeLog t desks ++ floorLog f (typeStep t desks)
            ++ proxLog sp p (floorStep f (typeStep t desks))) ∧
    (typeLog t desks).length = (if truthyOptStr t then 1 else 0) ∧
    (floorLog f (typeStep t desks)).length = (if f.isSome then 1 else 0) ∧
    (proxLog sp p (floorStep f (typeStep t desks))).length =
      (if truthyOptStr p then 1 else 0) := by
  refine ⟨rfl, ?_, ?_, ?_⟩
  · cases t with
    | none => rfl
    | some s =>
      unfold typeLog truthyOptStr
      cases hs : s.isEmpty <;> simp [hs]
  · cases f with
    | none => rfl
    | some x => rfl
  · cases p with
    | none => rfl
    | some s =>
      unfold proxLog truthyOptStr
      cases hs : s.isEmpty with
      | true => simp [hs]
      | false =>
        simp only [hs, Bool.false_eq_true, if_false, Bool.not_false, if_true]
        split
        · split <;> rfl
        · rfl

end OccupancyPlanner
